import Mathlib

/-!
Verification development for the elasticsearch-orm document-mapping layer
(src/elasticsearch-orm.js). The source file holds two concatenated versions
of the module; the first (current) version is the authority, the second is a
legacy copy referenced where a claim names it.

The embedding models JavaScript values with a JSON-like inductive type,
asynchronous operations as pure functions from the responses the external
client would deliver to the list of requests issued and the list of callback
invocations performed, and the external client itself as an oracle argument.
-/

namespace EsOrm

/-- JavaScript values as the module manipulates them: undefined, null,
booleans, numbers, strings, arrays and plain objects (ordered field lists,
matching property-insertion order). -/
inductive JVal where
  | undefined
  | null
  | bool (b : Bool)
  | num (n : Int)
  | str (s : String)
  | arr (elems : List JVal)
  | obj (fields : List (String × JVal))

/-- JavaScript truthiness of a value. -/
def JVal.truthy : JVal → Bool
  | .undefined => false
  | .null => false
  | .bool b => b
  | .num n => n != 0
  | .str s => s != ""
  | .arr _ => true
  | .obj _ => true

/-- Property read `v[key]`: object field lookup, undefined otherwise (the
module only reads named properties off objects, strings and undefined; a
missing field reads as undefined). -/
def jget (v : JVal) (key : String) : JVal :=
  match v with
  | .obj fields => (((fields.find? (fun p => p.1 == key)).map Prod.snd).getD .undefined)
  | _ => .undefined

def setField : List (String × JVal) → String → JVal → List (String × JVal)
  | [], k, x => [(k, x)]
  | (k0, v0) :: rest, k, x =>
      if k0 == k then (k0, x) :: rest else (k0, v0) :: setField rest k x

/-- Property write `v[key] = x`: updates an object field in place; writing a
property on a primitive is a silent no-op (non-strict mode). -/
def jset (v : JVal) (key : String) (x : JVal) : JVal :=
  match v with
  | .obj fields => .obj (setField fields key x)
  | v0 => v0

/-- Test `typeof v === "string"`. -/
def isStringV : JVal → Bool
  | .str _ => true
  | _ => false

/-- Errors are modelled by their message text (the source only ever creates
plain `new Error(message)` values; the spec taxonomy names such as
MissingIdentifierError refer to these). -/
abbrev Err := String

/-- A document instance: engine id, optimistic version, the `_index` and
`_type` strings of its model, the `__origData` snapshot and the `__data`
field map. -/
structure Doc where
  id : Option String
  version : Option Nat
  indexName : String
  typeName : String
  origData : JVal
  data : JVal

/-- A JavaScript function value, carrying its `length` property (the number
of declared parameters). -/
structure JSFunctionVal where
  arity : Nat

/-- The module-level binding `var diff = require("deep-diff").diff`: a
function value whose declared parameter list is `(lhs, rhs, prefilter,
accum)`, so its `length` property is 4. -/
def deepDiffFn : JSFunctionVal := ⟨4⟩

/-- Source `hasChanged: function() { return !!(diff && diff.length > 0); }`.
Inside the method body the identifier `diff` resolves to the module-level
deep-diff function (an object-literal property named `diff` does not shadow
an outer variable), so the expression tests the function value itself: a
function is truthy and its `length` is its arity. The document is never
consulted, making the result constant. -/
def hasChanged (_doc : Doc) : Bool :=
  decide (0 < deepDiffFn.arity)

/-- Source (current version) `validate: function(callback) { callback(); }`:
a no-op that reports no error — the comment in the source says properties
are validated when set. -/
def validate (_doc : Doc) : Option Err := none

/-- A write request issued to the external client. -/
inductive ClientReq where
  | index (idx typ : String) (id : Option String) (body : JVal)
  | update (idx typ : String) (id : String) (version : Option Nat) (doc : JVal)
  | delete (idx typ : String) (id : String)

/-- Observable outcome of one asynchronous document operation: the requests
sent to the external client, in order, and the callback invocations
performed, each an (error?, result?) pair. -/
structure Outcome (α : Type) where
  requests : List ClientReq
  calls : List (Option Err × Option α)

/-- JavaScript test `!this.id`: the id is falsy when absent or the empty
string. -/
def idFalsy : Option String → Bool
  | none => true
  | some s => s == ""

/-- Source `save(callback)`: when `hasChanged()` is false call back at once
with no arguments; otherwise validate, and on success send an index request
with the full `__data` body, then call `callback(err, this)` — the document
is passed as the result even when the client reported an error. The client
oracle is the error the index request would come back with. -/
def save (doc : Doc) (indexErr : Option Err) : Outcome Doc :=
  if !(hasChanged doc) then
    { requests := [], calls := [(none, none)] }
  else
    match validate doc with
    | some e => { requests := [], calls := [(some e, none)] }
    | none =>
        { requests := [ClientReq.index doc.indexName doc.typeName doc.id doc.data],
          calls := [(indexErr, some doc)] }

def missingIdUpdateErr : Err := "Cannot update: no ID specified."

def missingIdRemoveErr : Err := "Cannot remove: no ID specified."

/-- Source `update(data, callback)`: fails at once when `!this.id`; then the
same `hasChanged` short-circuit and validation as `save`; on success sends a
partial update request `{doc: this.__data}` carrying the version, and calls
`callback(err, this)`. Note the `data` argument is never read by the source
body. -/
def update (doc : Doc) (_data : JVal) (updErr : Option Err) : Outcome Doc :=
  if idFalsy doc.id then
    { requests := [], calls := [(some missingIdUpdateErr, none)] }
  else if !(hasChanged doc) then
    { requests := [], calls := [(none, none)] }
  else
    match validate doc with
    | some e => { requests := [], calls := [(some e, none)] }
    | none =>
        { requests := [ClientReq.update doc.indexName doc.typeName
            (doc.id.getD "") doc.version doc.data],
          calls := [(updErr, some doc)] }

/-- Source `remove(callback)`: fails at once when `!this.id`; otherwise
sends a delete request and calls `callback(err, this)`. -/
def remove (doc : Doc) (delErr : Option Err) : Outcome Doc :=
  if idFalsy doc.id then
    { requests := [], calls := [(some missingIdRemoveErr, none)] }
  else
    { requests := [ClientReq.delete doc.indexName doc.typeName (doc.id.getD "")],
      calls := [(delErr, some doc)] }

/-! Deferred call queue. The source enqueues with
`this.execQueue.push("populate", [path])`: a JavaScript `push` with two
arguments appends both values, so the queue receives the method-name string
and the argument array as two separate elements, not one pair. `exec` then
replays with `this[call[0]].apply(this, call[1].concat([callback]))`,
reading each queue element as if it were a (name, args) pair. -/

/-- Enqueue operation `execQueue.push(name, args)`: appends the name string
and the args array as two elements of the queue. -/
def pushCall (q : List JVal) (name : String) (args : List JVal) : List JVal :=
  q ++ [JVal.str name, JVal.arr args]

/-- Source `populate` with no callback: `this.execQueue.push("populate",
[path]); return this;`. -/
def populateEnqueue (q : List JVal) (path : JVal) : List JVal :=
  pushCall q "populate" [path]

/-- JavaScript indexing `v[0]`: the first one-character string of a string,
the first element of an array, undefined otherwise. -/
def jsIndexZero : JVal → JVal
  | .str s =>
      match s.data with
      | [] => .undefined
      | c :: _ => .str (String.mk [c])
  | .arr elems => elems.headD .undefined
  | _ => .undefined

/-- The method names defined on the document prototype (the functions that
`this[name]` can resolve to on a document). -/
def docMethodNames : List String :=
  ["_populate", "populate", "diff", "hasChanged", "save", "update", "remove",
   "validate", "exec"]

/-- The method `exec` would dispatch for one queue element: `this[call[0]]`
is a function exactly when `call[0]` evaluates to the name of a prototype
method; otherwise the `.apply` throws a TypeError (modelled as none). -/
def dispatchTarget (entry : JVal) : Option String :=
  match jsIndexZero entry with
  | .str s => if docMethodNames.contains s then some s else none
  | _ => none

/-! Query builder. -/

/-- The `this.options` object a Query is constructed with, plus the `count`
flag that `Query.prototype.count` sets (absent, hence falsy, initially). -/
structure QueryOptions where
  limit : Nat
  skip : Nat
  fields : JVal
  lean : Bool
  populate : String
  sort : List (String × JVal)
  count : Bool

/-- Source constructor defaults: `{limit: 10, skip: 0, fields: true, lean:
false, populate: "", sort: {}}`, with the `count` property not yet set. -/
def defaultQueryOptions : QueryOptions :=
  { limit := 10, skip := 0, fields := JVal.bool true, lean := false,
    populate := "", sort := [], count := false }

/-- Source `this.query = query || {}`. -/
def queryOrEmpty (q : JVal) : JVal :=
  if q.truthy then q else JVal.obj []

/-- A Query instance as constructed by `new Query(query, model)`. -/
structure QueryModel where
  query : JVal
  options : QueryOptions

def mkQuery (criteria : JVal) : QueryModel :=
  { query := queryOrEmpty criteria, options := defaultQueryOptions }

/-- Sort-direction normalization: `val === "desc" || val === "descending"
|| val === -1` picks "desc", anything else "asc". -/
def normalizeDir (v : JVal) : String :=
  match v with
  | .str s => if s == "desc" || s == "descending" then "desc" else "asc"
  | .num n => if n == -1 then "desc" else "asc"
  | _ => "asc"

/-- Field selection: a string is split on whitespace runs
(`fields.split(/\s+/)`), any other value passes through. -/
def fieldsValue (f : JVal) : JVal :=
  match f with
  | .str s => .arr (((s.split Char.isWhitespace).filter (fun w => w ≠ "")).map JVal.str)
  | v => v

/-- Body of the request `exec` hands to the client: a search body
({query: {match: criteria}, sort}) or, when the criteria carries a truthy
id, an mget body whose `ids` value is `_.isArray(id) ? [id] : id`. -/
inductive RequestBody where
  | search (matchCriteria : JVal) (sort : List (String × String))
  | mget (ids : JVal)

def RequestBody.isSearch : RequestBody → Bool
  | .search _ _ => true
  | _ => false

/-- The request object `exec` builds: index, type, from, size, fields and
the body. In the mget path only the body is replaced; from, size and fields
stay on the request object. -/
structure BuiltRequest where
  index : String
  typeName : String
  fromIdx : Nat
  size : Nat
  fields : JVal
  body : RequestBody

/-- Construction of the request in `Query.prototype.exec`, lines 351-382 of
the source: the search request is assembled first, then, when
`this.query.id` is truthy, the body is overwritten with
`{ids: _.isArray(this.query.id) ? [this.query.id] : this.query.id}` and the
execution path switches to mget. Note the ternary wraps the value exactly
when it is already an array. -/
def buildRequest (modelIndex modelType : String) (query : JVal)
    (opts : QueryOptions) : BuiltRequest :=
  let base : BuiltRequest :=
    { index := modelIndex, typeName := modelType,
      fromIdx := opts.skip, size := opts.limit,
      fields := fieldsValue opts.fields,
      body := RequestBody.search query
        (opts.sort.map (fun p => (p.1, normalizeDir p.2))) }
  let idv := jget query "id"
  if idv.truthy then
    { base with
      body := RequestBody.mget
        (match idv with
         | .arr elems => JVal.arr [JVal.arr elems]
         | v => v) }
  else base

/-- What the external client delivers on success: `response.hits.hits` and
`response.hits.total`. -/
structure ClientResponse where
  hits : List JVal
  total : Nat

/-- The `results` variable after the response branch of `exec`: the total
(count mode), a Results collection of documents wrapped from the hits, or
the untouched raw hits (lean mode without populate). A document wrapped
from a hit is represented by the hit value. -/
inductive ResultsVal where
  | total (n : Nat)
  | wrapped (docs : List JVal)
  | rawHits (hits : List JVal)

/-- The value handed to the final callback. -/
inductive CallbackVal where
  | doc (d : JVal)
  | undefined
  | resultSet (docs : List JVal)
  | raw (hits : List JVal)
  | cnt (n : Nat)

/-- Final collapse `single ? results[0] : results`: indexing a collection
takes its first element (undefined when empty); indexing a number yields
undefined (that combination is unreachable: count mode forces single off).
-/
def collapse (single : Bool) (r : ResultsVal) : CallbackVal :=
  if single then
    match r with
    | .wrapped docs =>
        match docs with
        | [] => .undefined
        | d :: _ => .doc d
    | .rawHits hits =>
        match hits with
        | [] => .undefined
        | h :: _ => .doc h
    | .total _ => .undefined
  else
    match r with
    | .wrapped docs => .resultSet docs
    | .rawHits hits => .raw hits
    | .total n => .cnt n

/-- Source `Query.prototype.exec`: computes `single` from `typeof
this.query.id === "string"`, builds the request, sends it, and shapes the
response. On a client error the callback fires once with the error alone.
Otherwise: count mode takes `response.hits.total` and forces single off;
non-lean mode (or a set populate path) wraps the hits into a Results
collection; lean mode without populate leaves the raw hits. When a populate
path is set and not counting, the populate pass runs over the items and the
callback receives its error, if any, alongside the collapsed result;
otherwise the callback receives the (null) client error and the collapsed
result. The populate pass is abstracted by the error it reports
(`populateErr`); its member mutations are not tracked, no claim consults
them. Returns the built request and the callback invocations. -/
def execQuery (modelIndex modelType : String) (query : JVal)
    (opts : QueryOptions) (clientResult : Except Err ClientResponse)
    (populateErr : Option Err) :
    BuiltRequest × List (Option Err × Option CallbackVal) :=
  let single0 := isStringV (jget query "id")
  let req := buildRequest modelIndex modelType query opts
  match clientResult with
  | .error e => (req, [(some e, none)])
  | .ok resp =>
      let sr : Bool × ResultsVal :=
        if opts.count then
          (false, ResultsVal.total resp.total)
        else if !opts.lean || opts.populate != "" then
          (single0, ResultsVal.wrapped resp.hits)
        else
          (single0, ResultsVal.rawHits resp.hits)
      if opts.populate != "" && !opts.count then
        (req, [(populateErr, some (collapse sr.1 sr.2))])
      else
        (req, [(none, some (collapse sr.1 sr.2))])

/-- Source `ModelStatics.find(query, callback)`: constructs a fresh Query
(default options) and executes it. -/
def find (modelIndex modelType : String) (criteria : JVal)
    (clientResult : Except Err ClientResponse) (populateErr : Option Err) :
    BuiltRequest × List (Option Err × Option CallbackVal) :=
  execQuery modelIndex modelType (mkQuery criteria).query
    (mkQuery criteria).options clientResult populateErr

/-- Source `ModelStatics.count(query, callback)` delegating to
`Query.prototype.count`, which sets `options.count = true` and executes. -/
def countStatic (modelIndex modelType : String) (criteria : JVal)
    (clientResult : Except Err ClientResponse) :
    BuiltRequest × List (Option Err × Option CallbackVal) :=
  execQuery modelIndex modelType (mkQuery criteria).query
    { (mkQuery criteria).options with count := true } clientResult none

/-! Legacy validate (second copy of the module). It walks the declared
schema properties in order, and for each one that is present on the field
map checks `this.__data[prop] instanceof type`, returning the first
mismatch as `new Error("Mis-match type: " + prop)`. The `instanceof` test
is kept abstract (a parameter), since the schema scaffolding that supplies
the constructor values lives outside the embedded module. -/

def keyPresent (data : List (String × JVal)) (k : String) : Bool :=
  data.any (fun p => p.1 == k)

def lookupField (data : List (String × JVal)) (k : String) : JVal :=
  (((data.find? (fun p => p.1 == k)).map Prod.snd).getD .undefined)

/-- Source (legacy copy) `validate(callback)`: iterate the schema props in
declaration order; a prop present in `__data` whose value fails the
`instanceof` check stops the walk with an error naming that prop; absent
props are skipped; when no present prop mismatches, call back with null. -/
def validateLegacy {τ : Type} (instOf : JVal → τ → Bool)
    (props : List (String × τ)) (data : List (String × JVal)) : Option Err :=
  match props with
  | [] => none
  | (prop, ty) :: rest =>
      if keyPresent data prop then
        if instOf (lookupField data prop) ty then validateLegacy instOf rest data
        else some ("Mis-match type: " ++ prop)
      else validateLegacy instOf rest data

/-! Populator. Source `_populate(curObj, parts, callback)` iterates `parts`
with concurrency 1, but its first iteration executes
`remaining = remaining.splice(1)`, which truncates `parts` (the very array
being iterated) to its first element: the loop therefore runs exactly once
per invocation, and only the array-of-subdocuments branch ever recurses
into the remaining segments. Each iteration first descends
(`curObj = curObj[prop]`) and then branches on `curObj[prop]` — the value
inspected is the original object indexed twice by the same segment name.
Single-id fetches (`model.findById(stringId, cb)`) and batch fetches
(`model.findById(arrayOfIds, cb)`) are oracle parameters; fetch results and
errors follow the source callbacks. Bounded-concurrency element recursion
(limit 4) is collapsed to its deterministic sequential order: the oracles
are pure, and dispatch stops at the first reported error. -/

/-- Outcome of a `_populate` call: the (possibly mutated) object, how many
findById fetches were issued, and the error handed to the callback. -/
structure PopOutcome where
  obj : JVal
  fetches : Nat
  err : Option Err

/-- Element-wise overwrite `for (i = 0; i < results.length; i++)
curObj[prop][i] = results[i]`: replaces a prefix of the array, extending it
when more results than elements came back. -/
def overwritePrefix : List JVal → List JVal → List JVal
  | xs, [] => xs
  | [], r :: rs => r :: overwritePrefix [] rs
  | _ :: xs, r :: rs => r :: overwritePrefix xs rs

/-- Iteration of `_populate` into the elements of an array of
sub-documents (`async.eachLimit(curObj[prop], 4, ...)` applying the
recursive step to each element): stops dispatching after the first error;
returns the updated elements, the fetches issued and the first error. -/
def popElemsWith (step : JVal → PopOutcome) :
    List JVal → List JVal × Nat × Option Err
  | [] => ([], 0, none)
  | e :: es =>
      let r := step e
      match r.err with
      | some msg => (r.obj :: es, r.fetches, some msg)
      | none =>
          let tail := popElemsWith step es
          (r.obj :: tail.1, r.fetches + tail.2.1, tail.2.2)

/-- Source `_populate`: one iteration over the (truncated) parts list. With
no segments the callback fires untouched. Otherwise let `inner` be the
descended object and `v` the doubly-indexed value: an array headed by a
string is treated as foreign ids and fetched in one batch, the elements
being overwritten with the results; an array of sub-documents recurses into
each element with the remaining segments; a string is fetched as a single
foreign id, replacing the field on success with a truthy document and
leaving it untouched on error or a falsy result; anything else descends and
succeeds. -/
def popModel (fetchOne : String → Option Err × JVal)
    (fetchMany : List JVal → Option Err × List JVal) :
    List String → JVal → PopOutcome
  | [], curObj => { obj := curObj, fetches := 0, err := none }
  | prop :: rest, curObj =>
      let inner := jget curObj prop
      match jget inner prop with
      | .arr elems =>
          match elems with
          | .str s0 :: tl =>
              match fetchMany (JVal.str s0 :: tl) with
              | (some e, _) => { obj := curObj, fetches := 1, err := some e }
              | (none, results) =>
                  { obj := jset curObj prop
                      (jset inner prop (JVal.arr (overwritePrefix (JVal.str s0 :: tl) results))),
                    fetches := 1, err := none }
          | _ =>
              let r := popElemsWith (popModel fetchOne fetchMany rest) elems
              { obj := jset curObj prop (jset inner prop (JVal.arr r.1)),
                fetches := r.2.1, err := r.2.2 }
      | .str s =>
          match fetchOne s with
          | (some e, _) => { obj := curObj, fetches := 1, err := some e }
          | (none, d) =>
              if d.truthy then
                { obj := jset curObj prop (jset inner prop d), fetches := 1, err := none }
              else
                { obj := curObj, fetches := 1, err := none }
      | _ => { obj := curObj, fetches := 0, err := none }

/-- Path split `String(path).split(".")`: cuts the string at every dot. -/
def pathParts (path : String) : List String :=
  let r := path.data.foldl
    (fun (acc : List String × String) c =>
      if c == '.' then (acc.1 ++ [acc.2], "") else (acc.1, acc.2.push c))
    ([], "")
  r.1 ++ [r.2]

/-- Source `populate(path, callback)` with a callback: split the path on
dots and run `_populate` on `this.__data`. -/
def populateDoc (fetchOne : String → Option Err × JVal)
    (fetchMany : List JVal → Option Err × List JVal)
    (doc : Doc) (path : String) : PopOutcome :=
  popModel fetchOne fetchMany (pathParts path) doc.data

/-! Concrete fixtures used by the claim theorems. -/

/-- A document loaded with `{title: "A"}` and never modified: `__origData`
and `__data` are the same field map. -/
def docUnchanged : Doc :=
  { id := some "1", version := none, indexName := "posts", typeName := "posts",
    origData := JVal.obj [("title", JVal.str "A")],
    data := JVal.obj [("title", JVal.str "A")] }

/-- A document whose `title` was changed from "A" to "B" after load. -/
def docChanged : Doc :=
  { id := some "1", version := none, indexName := "posts", typeName := "posts",
    origData := JVal.obj [("t", JVal.str "A")],
    data := JVal.obj [("t", JVal.str "B")] }

/-- A document with no id. -/
def docNoId : Doc :=
  { id := none, version := none, indexName := "posts", typeName := "posts",
    origData := JVal.obj [], data := JVal.obj [("x", JVal.num 1)] }

/-- A field map holding a mismatched property: `title` stores a number. -/
def docMistyped : Doc :=
  { id := some "1", version := none, indexName := "posts", typeName := "posts",
    origData := JVal.obj [], data := JVal.obj [("title", JVal.num 3)] }

/-- An instanceof test for a string-typed schema property, used as a sample
checker for the legacy validate. -/
def isStrType : JVal → Unit → Bool := fun v _ => isStringV v

/-- A document whose field `a` stores the foreign id "id1". -/
def docForeignId : Doc :=
  { id := some "1", version := none, indexName := "posts", typeName := "posts",
    origData := JVal.obj [("a", JVal.str "id1")],
    data := JVal.obj [("a", JVal.str "id1")] }

/-- A fetch oracle that always succeeds with a fetched document. -/
def fetchOneOk : String → Option Err × JVal :=
  fun _ => (none, JVal.obj [("name", JVal.str "Fetched")])

/-- A fetch oracle that always fails. -/
def fetchOneFail : String → Option Err × JVal :=
  fun _ => (some "NotFoundError", JVal.undefined)

/-- A batch fetch oracle (unused by the single-id scenarios). -/
def fetchManyEmpty : List JVal → Option Err × List JVal :=
  fun _ => (none, [])

/-- Claim C1: on the document loaded as `{title: "A"}` and never modified,
`hasChanged()` still reports true (it tests the module-level deep-diff
function, not the instance diff), so `save` issues one index request
instead of calling back with no network operation. This evaluates the code
at the failing input of the claim. -/
theorem save_unchanged_doc_still_indexes :
    docUnchanged.origData = docUnchanged.data ∧
    hasChanged docUnchanged = true ∧
    (save docUnchanged none).requests =
      [ClientReq.index "posts" "posts" (some "1")
        (JVal.obj [("title", JVal.str "A")])] ∧
    (save docUnchanged none).calls = [(none, some docUnchanged)] :=
  ⟨rfl, rfl, rfl, rfl⟩

/-- Claim C2: enqueueing `populate("a")` with no callback appends two queue
elements (the name string and the argument array), not one (name, args)
pair; replay then reads `call[0]` of the string element as its first
character "p", which names no prototype method, so `exec` cannot dispatch
either element. This evaluates the code at the failing input of the claim.
-/
theorem enqueue_pushes_two_elements :
    (populateEnqueue [] (JVal.str "a")).length = 2 ∧
    populateEnqueue [] (JVal.str "a") =
      [JVal.str "populate", JVal.arr [JVal.str "a"]] ∧
    jsIndexZero (JVal.str "populate") = JVal.str "p" ∧
    dispatchTarget (JVal.str "populate") = none ∧
    dispatchTarget (JVal.arr [JVal.str "a"]) = none :=
  ⟨rfl, rfl, rfl, rfl, rfl⟩

/-- Claim C3: the mget body encodes a scalar id bare (not wrapped as a
one-element sequence) and wraps an array id in a further one-element
sequence (not passed as that sequence): the coercion the claim states is
inverted in the code. This evaluates the code at the failing inputs of the
claim. -/
theorem mget_ids_encoding :
    (buildRequest "posts" "posts" (JVal.obj [("id", JVal.str "42")])
        defaultQueryOptions).body = RequestBody.mget (JVal.str "42") ∧
    (buildRequest "posts" "posts"
        (JVal.obj [("id", JVal.arr [JVal.str "X", JVal.str "Y"])])
        defaultQueryOptions).body =
      RequestBody.mget (JVal.arr [JVal.arr [JVal.str "X", JVal.str "Y"]]) :=
  ⟨rfl, rfl⟩

/-- Claim C4: executing `find({id: s})` with a scalar string id delivers the
first document of the (wrapped) result collection, or undefined when no
hits came back — never the collection itself, whatever the hits. -/
theorem find_scalar_id_single (modelIndex modelType : String) (s : String)
    (hits : List JVal) (total : Nat) (populateErr : Option Err) :
    (find modelIndex modelType (JVal.obj [("id", JVal.str s)])
        (Except.ok ⟨hits, total⟩) populateErr).2 =
      [(none, some (match hits with
        | [] => CallbackVal.undefined
        | h :: _ => CallbackVal.doc h))] := by
  cases hits <;> rfl

/-- Claim C5: with the count flag set, `exec` resolves to the integer hit
total for every criteria, every lean and populate setting and every
response; `ModelStatics.count` (fresh query, count flag set) does the same.
The single-document collapse is forced off: the value is a count, never a
ResultSet or a document. -/
theorem count_resolves_to_total (modelIndex modelType : String)
    (query : JVal) (opts : QueryOptions) (resp : ClientResponse)
    (populateErr : Option Err) (h : opts.count = true) :
    (execQuery modelIndex modelType query opts (Except.ok resp)
        populateErr).2 = [(none, some (CallbackVal.cnt resp.total))] ∧
    (countStatic modelIndex modelType query (Except.ok resp)).2 =
      [(none, some (CallbackVal.cnt resp.total))] := by
  constructor
  · simp [execQuery, h, collapse]
  · simp [countStatic, execQuery, collapse]

/-- Claim C5 witness: the count theorem applied at a concrete query. -/
theorem count_resolves_to_total_witness :
    (execQuery "posts" "posts" (JVal.obj [])
        { defaultQueryOptions with count := true }
        (Except.ok ⟨[], 5⟩) none).2 = [(none, some (CallbackVal.cnt 5))] ∧
    (countStatic "posts" "posts" (JVal.obj []) (Except.ok ⟨[], 5⟩)).2 =
      [(none, some (CallbackVal.cnt 5))] :=
  count_resolves_to_total "posts" "posts" (JVal.obj [])
    { defaultQueryOptions with count := true } ⟨[], 5⟩ none rfl

/-- Claim C6 counterexample: on a field map whose present property `title`
mismatches its declared string type — the legacy checker itself rejects it,
naming the property — the live `validate` still reports no error, so the
claim that the first mismatch fails the callback is false on the code. -/
theorem validate_passes_mismatched_field :
    validateLegacy isStrType [("title", ())] [("title", JVal.num 3)] =
      some "Mis-match type: title" ∧
    docMistyped.data = JVal.obj [("title", JVal.num 3)] ∧
    validate docMistyped = none :=
  ⟨rfl, rfl, rfl⟩

/-- Claim C6 as amended: the live `validate` performs no checks and always
reports no error (the source defers validation to property setters), while
the legacy copy of `validate` walks the schema-declared properties in
order, skips the absent ones, and returns an error naming exactly the first
declared property that is present on the field map and fails its
instanceof check. -/
theorem validate_noop_and_legacy_first_mismatch :
    (∀ doc : Doc, validate doc = none) ∧
    (∀ (τ : Type) (instOf : JVal → τ → Bool) (props : List (String × τ))
        (data : List (String × JVal)),
      validateLegacy instOf props data =
        (props.find? (fun p =>
            keyPresent data p.1 && !instOf (lookupField data p.1) p.2)).map
          (fun p => "Mis-match type: " ++ p.1)) := by
  refine ⟨fun _ => rfl, fun τ instOf props data => ?_⟩
  induction props with
  | nil => rfl
  | cons hd tl ih =>
    obtain ⟨prop, ty⟩ := hd
    cases hkp : keyPresent data prop with
    | false => simp [validateLegacy, List.find?, hkp, ih]
    | true =>
      cases hio : instOf (lookupField data prop) ty with
      | false => simp [validateLegacy, List.find?, hkp, hio]
      | true => simp [validateLegacy, List.find?, hkp, hio, ih]

/-- Claim C7 counterexample: when the client reports an error for the index
request, `save` invokes its callback with the error and the document
together — the result is not undefined while the error is set, so the
claim as stated is false on the code. -/
theorem save_error_passes_document :
    (save docChanged (some "boom")).calls = [(some "boom", some docChanged)] ∧
    ((save docChanged (some "boom")).calls.all
      (fun c => !(c.1.isSome && c.2.isSome))) = false :=
  ⟨rfl, rfl⟩

/-- Claim C7 as amended: save, update, remove and query exec each terminate
in exactly one callback invocation; the transport-error path of exec leaves
the result undefined, but save (and likewise update and remove) passes the
document as the result argument even when the error is set. -/
theorem async_ops_single_callback :
    (∀ (doc : Doc) (e : Option Err), (save doc e).calls.length = 1) ∧
    (∀ (doc : Doc) (d : JVal) (e : Option Err),
      (update doc d e).calls.length = 1) ∧
    (∀ (doc : Doc) (e : Option Err), (remove doc e).calls.length = 1) ∧
    (∀ (modelIndex modelType : String) (q : JVal) (opts : QueryOptions)
        (res : Except Err ClientResponse) (pe : Option Err),
      ((execQuery modelIndex modelType q opts res pe).2).length = 1) ∧
    (∀ (modelIndex modelType : String) (q : JVal) (opts : QueryOptions)
        (pe : Option Err) (e : Err),
      (execQuery modelIndex modelType q opts (Except.error e) pe).2 =
        [(some e, none)]) ∧
    (∀ (doc : Doc) (e : Err),
      (save doc (some e)).calls = [(some e, some doc)]) ∧
    (∀ (doc : Doc) (d : JVal) (e : Err), idFalsy doc.id = false →
      (update doc d (some e)).calls = [(some e, some doc)]) ∧
    (∀ (doc : Doc) (e : Err), idFalsy doc.id = false →
      (remove doc (some e)).calls = [(some e, some doc)]) := by
  refine ⟨fun doc e => rfl, ?_, ?_, ?_, fun _ _ _ _ _ _ => rfl,
    fun doc e => rfl, ?_, ?_⟩
  · intro doc d e
    obtain ⟨id, ver, ix, ty, od, dd⟩ := doc
    cases id with
    | none => rfl
    | some s =>
      by_cases h : (s == "") = true
      · simp [update, idFalsy, h]
      · simp [update, idFalsy, h, hasChanged, deepDiffFn, validate]
  · intro doc e
    obtain ⟨id, ver, ix, ty, od, dd⟩ := doc
    cases id with
    | none => rfl
    | some s =>
      by_cases h : (s == "") = true
      · simp [remove, idFalsy, h]
      · simp [remove, idFalsy, h]
  · intro modelIndex modelType q opts res pe
    cases res with
    | error e => rfl
    | ok resp =>
      simp only [execQuery]
      split <;> rfl
  · intro doc d e h
    simp [update, h, hasChanged, deepDiffFn, validate]
  · intro doc e h
    simp [remove, h]

/-- Claim C8: `update` on a document whose id is absent fails at once with
the missing-identifier error and issues no request, for every input data
and every client oracle. -/
theorem update_without_id_fails (doc : Doc) (d : JVal) (e : Option Err)
    (h : doc.id = none) :
    update doc d e =
      { requests := [], calls := [(some missingIdUpdateErr, none)] } := by
  simp [update, idFalsy, h]

/-- Claim C8 witness: the theorem applied to a concrete id-less document. -/
theorem update_without_id_fails_witness :
    update docNoId (JVal.str "y") none =
      { requests := [], calls := [(some missingIdUpdateErr, none)] } :=
  update_without_id_fails docNoId (JVal.str "y") none rfl

/-- Claim C9: populating path "a" on a document whose field `a` holds the
foreign id "id1" issues no fetch and leaves the document untouched, with a
succeeding oracle and with a failing one alike (the code inspects
`curObj[prop]` after already descending by `prop`, so the string id is
never seen). This evaluates the code at the failing input of the claim. -/
theorem populate_single_id_never_fetches :
    populateDoc fetchOneOk fetchManyEmpty docForeignId "a" =
      { obj := docForeignId.data, fetches := 0, err := none } ∧
    populateDoc fetchOneFail fetchManyEmpty docForeignId "a" =
      { obj := docForeignId.data, fetches := 0, err := none } :=
  ⟨rfl, rfl⟩

/-- Claim C10: a freshly constructed Query carries the default options
limit 10, skip 0, fields true, lean false, empty populate path, empty
sort, count unset; and when the criteria carries no truthy id, the built
request is a search request with from 0 and size 10. -/
theorem query_defaults (modelIndex modelType : String) (criteria : JVal)
    (h : (jget (mkQuery criteria).query "id").truthy = false) :
    (mkQuery criteria).options =
      { limit := 10, skip := 0, fields := JVal.bool true, lean := false,
        populate := "", sort := [], count := false } ∧
    (buildRequest modelIndex modelType (mkQuery criteria).query
        (mkQuery criteria).options).fromIdx = 0 ∧
    (buildRequest modelIndex modelType (mkQuery criteria).query
        (mkQuery criteria).options).size = 10 ∧
    (buildRequest modelIndex modelType (mkQuery criteria).query
        (mkQuery criteria).options).body.isSearch = true := by
  have h2 : (jget (queryOrEmpty criteria) "id").truthy = false := h
  refine ⟨rfl, ?_, ?_, ?_⟩ <;>
    simp [buildRequest, h2, mkQuery, defaultQueryOptions, RequestBody.isSearch]

/-- Claim C10 witness: the defaults theorem applied to a concrete
id-less criteria object. -/
theorem query_defaults_witness :
    (mkQuery (JVal.obj [("title", JVal.str "x")])).options =
      { limit := 10, skip := 0, fields := JVal.bool true, lean := false,
        populate := "", sort := [], count := false } ∧
    (buildRequest "posts" "posts"
        (mkQuery (JVal.obj [("title", JVal.str "x")])).query
        (mkQuery (JVal.obj [("title", JVal.str "x")])).options).fromIdx = 0 ∧
    (buildRequest "posts" "posts"
        (mkQuery (JVal.obj [("title", JVal.str "x")])).query
        (mkQuery (JVal.obj [("title", JVal.str "x")])).options).size = 10 ∧
    (buildRequest "posts" "posts"
        (mkQuery (JVal.obj [("title", JVal.str "x")])).query
        (mkQuery (JVal.obj [("title", JVal.str "x")])).options).body.isSearch
      = true :=
  query_defaults "posts" "posts" (JVal.obj [("title", JVal.str "x")]) rfl

end EsOrm
